import Mathlib

/-!
Verification of the service-imputation core of the zomato-viz repository
(`data_imputation.py`, function `impute_missing_services`), over a shallow
embedding in Lean 4.

Modelling conventions.

A pandas DataFrame row of the cleaned restaurant table is a `Row`: the
`City` column, the two boolean service columns `Has Table booking` and
`Has Online delivery` (already coerced, missing defaulted to `false`), the
unrelated boolean `Is delivering now`, and an opaque field `other`
standing for every remaining column of the row.  The table itself is a
`List Row`; the pandas index is modelled as the standard `RangeIndex`
0..n-1, i.e. the label of a row is its position in the list.

`original_services_df` (the pre-coercion record of which raw service
fields were absent) is a `List MaskRow` of three absence flags per row,
parallel to the table.

Probabilities are rationals; a pandas `NaN` probability (mean over an
empty selection) is `Option.none`.  `numpy` comparisons with `NaN` are
false, which `bern` reproduces on `none`.

The two draws of `np.random.rand` per eligible row (line 44 draws for
booking, line 45 for delivery) are modelled as two given sequences
`dB dD : Nat → ℚ` of values in [0,1); position `j` of each sequence is
the draw used for the j-th eligible row.

A central point of the embedding: on line 34 the source computes
the merge of `restaurants_to_impute` with `city_probabilities` on the
City column, with a left join.
A pandas column merge discards the index of its left operand and gives
the result a fresh `RangeIndex`, so after line 34 the index of
`restaurants_to_impute` is 0..k-1 (k = number of eligible rows), not the
set of eligible labels.  The write-back on lines 48-49,
`df.loc[restaurants_to_impute.index, ...] = ...`, therefore assigns the
imputed values to the first k labels of `df`.  The embedding reproduces
this: row `i` of the output is rewritten exactly when `i < k`, receiving
the values computed for the i-th eligible row.
-/

/-- One row of the cleaned restaurant table: `City`, the two coerced
boolean service columns, the untouched `Is delivering now` boolean, and
an opaque stand-in for all remaining columns. -/
structure Row where
  city : String
  hasTableBooking : Bool
  hasOnlineDelivery : Bool
  isDeliveringNow : Bool
  other : String
deriving DecidableEq

/-- One row of `original_services_df.isnull()`: for each of the three raw
service columns, whether the value was absent before coercion. -/
structure MaskRow where
  tbAbsent : Bool
  odAbsent : Bool
  dnAbsent : Bool
deriving DecidableEq

/-- Line 28: `original_services_df.isnull().all(axis=1)` for one row —
all three raw service fields were absent. -/
def isEligible (m : MaskRow) : Bool :=
  m.tbAbsent && m.odAbsent && m.dnAbsent

/-- Line 30: positions (= labels under `RangeIndex`) of the rows selected
by `df[no_services_mask]`, in table order. -/
def eligibleIdx (mask : List MaskRow) : List Nat :=
  (mask.enum.filter (fun p => isEligible p.2)).map (fun p => p.1)

/-- Mean of a pandas boolean column: number of `True` entries divided by
the length; `NaN` (here `none`) on an empty column. -/
def meanBool (l : List Bool) : Option ℚ :=
  if l.length = 0 then none else some ((l.count true : ℚ) / (l.length : ℚ))

/-- The group of city `c` under the groupby on the City column: the rows
whose City equals `c`. -/
def cityRows (df : List Row) (c : String) : List Row :=
  df.filter (fun r => r.city == c)

/-- Lines 22-25: the `prob_booking` aggregate for city `c` — the mean of
`Has Table booking` over the group of `c`; `none` when `c` has no rows
(no such group exists, so a left merge on it yields `NaN`). -/
def prob_booking (df : List Row) (c : String) : Option ℚ :=
  meanBool ((cityRows df c).map Row.hasTableBooking)

/-- Lines 22-25: the `prob_delivery` aggregate for city `c`. -/
def prob_delivery (df : List Row) (c : String) : Option ℚ :=
  meanBool ((cityRows df c).map Row.hasOnlineDelivery)

/-- Line 37: the mean of the column Has Table booking over the whole
table. -/
def global_prob_booking (df : List Row) : Option ℚ :=
  meanBool (df.map Row.hasTableBooking)

/-- Line 38: the mean of the column Has Online delivery over the whole
table. -/
def global_prob_delivery (df : List Row) : Option ℚ :=
  meanBool (df.map Row.hasOnlineDelivery)

/-- Lines 34 and 39: the booking probability attached to a row of city
`c` after the left merge and the `fillna(global_prob_booking)`. -/
def resolved_prob_booking (df : List Row) (c : String) : Option ℚ :=
  match prob_booking df c with
  | some p => some p
  | none => global_prob_booking df

/-- Lines 34 and 40: the delivery probability after merge and fillna. -/
def resolved_prob_delivery (df : List Row) (c : String) : Option ℚ :=
  match prob_delivery df c with
  | some p => some p
  | none => global_prob_delivery df

/-- Lines 44-45: `draw < probability`; a comparison against `NaN`
(`none`) is false in numpy, hence `false` here. -/
def bern (draw : ℚ) (p : Option ℚ) : Bool :=
  match p with
  | some q => decide (draw < q)
  | none => false

/-- The `City` value of the row at position `pos` of the table (the
sentinel is never reached when `pos` is a valid position). -/
def cityAt (df : List Row) (pos : Nat) : String :=
  ((df[pos]?).map Row.city).getD ""

/-- Which eligible row the write-back at label `i` takes its values
from: after the merge on line 34 resets the index of
`restaurants_to_impute` to 0..k-1, label `i` of `df` is assigned (lines
48-49) the values computed for the i-th eligible row, whose original
position this returns; `none` when `i ≥ k`, i.e. label `i` is not
assigned at all. -/
def targetPos (mask : List MaskRow) (i : Nat) : Option Nat :=
  (eligibleIdx mask)[i]?

/-- Whether the write-back of lines 48-49 assigns into the row at label
`i`; note this depends on the mask only. -/
def rowWritten (mask : List MaskRow) (i : Nat) : Bool :=
  (targetPos mask i).isSome

/-- Line 44 for one value: the imputed booking boolean that the
write-back stores at label `i` (meaningful when `rowWritten mask i`). -/
def imputedB (df : List Row) (mask : List MaskRow) (dB : Nat → ℚ) (i : Nat) : Bool :=
  match targetPos mask i with
  | some pos => bern (dB i) (resolved_prob_booking df (cityAt df pos))
  | none => false

/-- Line 45 for one value: the imputed delivery boolean stored at label
`i`. -/
def imputedD (df : List Row) (mask : List MaskRow) (dD : Nat → ℚ) (i : Nat) : Bool :=
  match targetPos mask i with
  | some pos => bern (dD i) (resolved_prob_delivery df (cityAt df pos))
  | none => false

/-- Effect of lines 48-49 on the row at label `i`: labels below k
receive the i-th imputed pair, every other row is untouched. -/
def imputeRow (df : List Row) (mask : List MaskRow) (dB dD : Nat → ℚ)
    (i : Nat) (r : Row) : Row :=
  match targetPos mask i with
  | some pos =>
      { r with
        hasTableBooking := bern (dB i) (resolved_prob_booking df (cityAt df pos)),
        hasOnlineDelivery := bern (dD i) (resolved_prob_delivery df (cityAt df pos)) }
  | none => r

/-- The whole body of `impute_missing_services` once the inputs are
well-formed: probabilities are computed from `df` (lines 22-25, 37-38),
the eligible rows are selected from the mask (lines 28-30), and the
write-back of lines 48-49 rewrites the first k labels of `df` with the
imputed pairs.  The result keeps every row of `df`, updated in place. -/
def imputeCore (df : List Row) (mask : List MaskRow) (dB dD : Nat → ℚ) : List Row :=
  df.enum.map (fun p => imputeRow df mask dB dD p.1 p.2)

/-- Entry point `impute_missing_services(df, original_services_df)`.
The two guards model how pandas fails fast on malformed input:
`hasCityColumn = false` stands for a table without a `City` column, on
which the groupby on the City column (line 22) raises `KeyError`; a mask whose
index does not align with the table (under `RangeIndex`, a different
length) makes the boolean indexing `df[no_services_mask]` (line 30)
raise an unalignable-indexer error.  Otherwise the imputation body runs
and the updated table is returned (line 55). -/
def impute_missing_services (hasCityColumn : Bool) (df : List Row)
    (mask : List MaskRow) (dB dD : Nat → ℚ) : Except String (List Row) :=
  if hasCityColumn = false then
    Except.error "KeyError: City"
  else if mask.length ≠ df.length then
    Except.error "IndexingError: unalignable boolean mask"
  else
    Except.ok (imputeCore df mask dB dD)

/-- Spec wording for a mean: the arithmetic mean of a boolean column,
each `true` counted as 1 and each `false` as 0. -/
def specMean (l : List Bool) : ℚ :=
  (l.map (fun b => if b then (1 : ℚ) else 0)).sum / (l.length : ℚ)

/-- The non-service columns of a row, as a tuple: everything except the
two booleans the imputation may write. -/
def nonServiceCols (r : Row) : String × Bool × String :=
  (r.city, r.isDeliveringNow, r.other)

/-- A draw sequence that is constantly zero, used for concrete runs. -/
def zeroDraws : Nat → ℚ := fun _ => 0

/-- Concrete three-row table, all rows in city A; only row 1 has table
booking. -/
def df3 : List Row :=
  [⟨"A", false, false, false, "x0"⟩,
   ⟨"A", true, false, false, "x1"⟩,
   ⟨"A", false, false, false, "x2"⟩]

/-- Concrete mask for `df3`: rows 0 and 1 had explicit raw values (all
three fields present), row 2 had all three raw service fields absent. -/
def mask3 : List MaskRow :=
  [⟨false, false, false⟩, ⟨false, false, false⟩, ⟨true, true, true⟩]

/-- A second three-row table with the same shape as `df3` but different
column values, for two-run comparisons. -/
def dfAlt : List Row :=
  [⟨"B", true, true, true, "y0"⟩,
   ⟨"C", false, true, false, "y1"⟩,
   ⟨"B", true, false, true, "y2"⟩]

/-- A one-row table whose only restaurant offers both services. -/
def dfOne : List Row := [⟨"A", true, true, false, "w"⟩]

/-- A one-row table whose only row is eligible (all raw fields were
absent, so the coerced booleans default to false). -/
def dfE : List Row := [⟨"A", false, false, false, "e"⟩]

/-- Mask for `dfE`: the single row had all three raw fields absent. -/
def maskE : List MaskRow := [⟨true, true, true⟩]

/-! Helper lemmas shared by the claim theorems. -/

theorem imputeCore_length (df : List Row) (mask : List MaskRow) (dB dD : Nat → ℚ) :
    (imputeCore df mask dB dD).length = df.length := by
  simp [imputeCore]

theorem imputeCore_getElem? (df : List Row) (mask : List MaskRow) (dB dD : Nat → ℚ)
    (i : Nat) :
    (imputeCore df mask dB dD)[i]? = (df[i]?).map (imputeRow df mask dB dD i) := by
  simp only [imputeCore, List.getElem?_map, List.getElem?_enum]
  cases df[i]? <;> rfl

theorem imputeRow_of_none (df : List Row) (mask : List MaskRow) (dB dD : Nat → ℚ)
    (i : Nat) (r : Row) (h : targetPos mask i = none) :
    imputeRow df mask dB dD i r = r := by
  unfold imputeRow
  rw [h]

theorem imputeRow_of_some (df : List Row) (mask : List MaskRow) (dB dD : Nat → ℚ)
    (i pos : Nat) (r : Row) (h : targetPos mask i = some pos) :
    imputeRow df mask dB dD i r =
      { r with
        hasTableBooking := bern (dB i) (resolved_prob_booking df (cityAt df pos)),
        hasOnlineDelivery := bern (dD i) (resolved_prob_delivery df (cityAt df pos)) } := by
  unfold imputeRow
  rw [h]

theorem imputeRow_nonService (df : List Row) (mask : List MaskRow) (dB dD : Nat → ℚ)
    (i : Nat) (r : Row) :
    nonServiceCols (imputeRow df mask dB dD i r) = nonServiceCols r := by
  unfold imputeRow
  cases targetPos mask i <;> rfl

theorem mem_eligibleIdx (mask : List MaskRow) (i : Nat) :
    i ∈ eligibleIdx mask ↔ ∃ m, mask[i]? = some m ∧ isEligible m = true := by
  unfold eligibleIdx
  constructor
  · intro h
    rcases List.mem_map.mp h with ⟨p, hp, hpi⟩
    rcases List.mem_filter.mp hp with ⟨hmem, helig⟩
    refine ⟨p.2, ?_, helig⟩
    rw [← hpi]
    have := List.mk_mem_enum_iff_getElem?.mp (show (p.1, p.2) ∈ mask.enum by simpa using hmem)
    simpa using this
  · rintro ⟨m, hm, helig⟩
    refine List.mem_map.mpr ⟨(i, m), List.mem_filter.mpr ⟨?_, helig⟩, rfl⟩
    exact List.mk_mem_enum_iff_getElem?.mpr hm

theorem eligibleIdx_eq_nil (mask : List MaskRow)
    (h : ∀ m ∈ mask, isEligible m = false) : eligibleIdx mask = [] := by
  unfold eligibleIdx
  rw [List.filter_eq_nil_iff.mpr, List.map_nil]
  intro p hp
  have hmem : p.2 ∈ mask := by
    have := List.mk_mem_enum_iff_getElem?.mp (show (p.1, p.2) ∈ mask.enum by simpa using hp)
    exact List.getElem?_mem this
  simp [h p.2 hmem]

theorem meanBool_bounds (l : List Bool) (q : ℚ) (h : meanBool l = some q) :
    0 ≤ q ∧ q ≤ 1 := by
  unfold meanBool at h
  by_cases hl : l.length = 0
  · simp [hl] at h
  · rw [if_neg hl, Option.some_inj] at h
    have hlen : (0 : ℚ) < (l.length : ℚ) := by
      exact_mod_cast Nat.pos_of_ne_zero hl
    constructor
    · rw [← h]
      exact div_nonneg (by positivity) (le_of_lt hlen)
    · rw [← h, div_le_one hlen]
      exact_mod_cast List.count_le_length true l

theorem count_true_cast (l : List Bool) :
    (l.count true : ℚ) = (l.map (fun b => if b then (1 : ℚ) else 0)).sum := by
  induction l with
  | nil => simp
  | cons b t ih =>
    cases b <;> (simp [List.count_cons, ih]; try ring)

theorem meanBool_eq_specMean (l : List Bool) (h : 0 < l.length) :
    meanBool l = some (specMean l) := by
  unfold meanBool specMean
  rw [if_neg (Nat.pos_iff_ne_zero.mp h), count_true_cast]

theorem imputeCore_untouched (df : List Row) (mask : List MaskRow) (dB dD : Nat → ℚ)
    (i : Nat) (h : rowWritten mask i = false) :
    (imputeCore df mask dB dD)[i]? = df[i]? := by
  have hnone : targetPos mask i = none := by
    unfold rowWritten at h
    exact Option.not_isSome_iff_eq_none.mp (by simp [h])
  rw [imputeCore_getElem?]
  cases hdf : df[i]? with
  | none => rfl
  | some r => simp [imputeRow_of_none df mask dB dD i r hnone]

theorem imputeCore_written_booking (df : List Row) (mask : List MaskRow)
    (dB dD : Nat → ℚ) (i : Nat) (h : rowWritten mask i = true) :
    ((imputeCore df mask dB dD)[i]?).map Row.hasTableBooking
      = (df[i]?).map (fun _ => imputedB df mask dB i) := by
  rcases Option.isSome_iff_exists.mp (by simpa [rowWritten] using h) with ⟨pos, hpos⟩
  rw [imputeCore_getElem?]
  cases hdf : df[i]? with
  | none => rfl
  | some r =>
      simp [imputeRow_of_some df mask dB dD i pos r hpos, imputedB, hpos]

theorem imputeCore_written_delivery (df : List Row) (mask : List MaskRow)
    (dB dD : Nat → ℚ) (i : Nat) (h : rowWritten mask i = true) :
    ((imputeCore df mask dB dD)[i]?).map Row.hasOnlineDelivery
      = (df[i]?).map (fun _ => imputedD df mask dD i) := by
  rcases Option.isSome_iff_exists.mp (by simpa [rowWritten] using h) with ⟨pos, hpos⟩
  rw [imputeCore_getElem?]
  cases hdf : df[i]? with
  | none => rfl
  | some r =>
      simp [imputeRow_of_some df mask dB dD i pos r hpos, imputedD, hpos]

/-! Claim theorems. -/

/-- C2: for every input table and mask, the imputed table has the same
row count as the input, and for every row no column other than the two
service booleans changes; in particular `City`, `Is delivering now` and
all remaining columns (`nonServiceCols`) are unchanged at every
position. -/
theorem impute_preserves_shape_and_nonservice_columns
    (df : List Row) (mask : List MaskRow) (dB dD : Nat → ℚ) :
    (imputeCore df mask dB dD).length = df.length ∧
    ∀ i : Nat,
      ((imputeCore df mask dB dD)[i]?).map nonServiceCols
        = (df[i]?).map nonServiceCols := by
  refine ⟨imputeCore_length df mask dB dD, fun i => ?_⟩
  rw [imputeCore_getElem?]
  cases hdf : df[i]? with
  | none => rfl
  | some r => simp [imputeRow_nonService df mask dB dD i r]

/-- C3: position i of the table is selected as eligible for imputation
iff its mask row shows all three original raw service fields absent; a
row with even one present original value is never selected. -/
theorem eligible_selection_iff (mask : List MaskRow) (i : Nat) :
    i ∈ eligibleIdx mask ↔
      ∃ m, mask[i]? = some m ∧
        m.tbAbsent = true ∧ m.odAbsent = true ∧ m.dnAbsent = true := by
  rw [mem_eligibleIdx]
  constructor
  · rintro ⟨m, hm, he⟩
    rcases Bool.and_eq_true_iff.mp he with ⟨h1, h3⟩
    rcases Bool.and_eq_true_iff.mp h1 with ⟨h1a, h1b⟩
    exact ⟨m, hm, h1a, h1b, h3⟩
  · rintro ⟨m, hm, h1, h2, h3⟩
    exact ⟨m, hm, by simp [isEligible, h1, h2, h3]⟩

/-- C8: when no mask row is fully absent there are no eligible rows and
the imputation returns the table unchanged; an empty table is returned
unchanged (and empty), and through the entry point it is not an
error. -/
theorem impute_no_eligible_rows_identity (df : List Row) (mask mask2 : List MaskRow)
    (dB dD : Nat → ℚ) (h : ∀ m ∈ mask, isEligible m = false) :
    imputeCore df mask dB dD = df ∧
    imputeCore [] mask2 dB dD = [] ∧
    impute_missing_services true [] [] dB dD = Except.ok [] := by
  refine ⟨?_, rfl, rfl⟩
  have he : eligibleIdx mask = [] := eligibleIdx_eq_nil mask h
  apply List.ext_getElem?
  intro i
  rw [imputeCore_getElem?]
  cases hdf : df[i]? with
  | none => rfl
  | some r =>
      simp [imputeRow_of_none df mask dB dD i r (by simp [targetPos, he])]

/-- C8 witness: on the concrete table `df3` with a mask that has no
fully-absent row, the imputation is the identity. -/
theorem impute_no_eligible_rows_identity_witness :
    imputeCore df3 [⟨false, false, false⟩, ⟨true, true, false⟩, ⟨false, true, true⟩]
        zeroDraws zeroDraws = df3 ∧
    imputeCore [] mask3 zeroDraws zeroDraws = [] ∧
    impute_missing_services true [] [] zeroDraws zeroDraws = Except.ok [] :=
  impute_no_eligible_rows_identity df3
    [⟨false, false, false⟩, ⟨true, true, false⟩, ⟨false, true, true⟩]
    mask3 zeroDraws zeroDraws (by decide)

/-- C10: which row positions the write-back rewrites is a function of
the mask alone: `rowWritten mask` mentions only the mask, positions with
`rowWritten mask i = false` hold their original row in any two runs on
any tables and any draw sequences, and positions with
`rowWritten mask i = true` hold the freshly imputed pair in both
runs. -/
theorem written_positions_determined_by_mask
    (df₁ df₂ : List Row) (mask : List MaskRow) (dB₁ dD₁ dB₂ dD₂ : Nat → ℚ) (i : Nat) :
    (rowWritten mask i = false →
      (imputeCore df₁ mask dB₁ dD₁)[i]? = df₁[i]? ∧
      (imputeCore df₂ mask dB₂ dD₂)[i]? = df₂[i]?) ∧
    (rowWritten mask i = true →
      ((imputeCore df₁ mask dB₁ dD₁)[i]?).map Row.hasTableBooking
        = (df₁[i]?).map (fun _ => imputedB df₁ mask dB₁ i) ∧
      ((imputeCore df₁ mask dB₁ dD₁)[i]?).map Row.hasOnlineDelivery
        = (df₁[i]?).map (fun _ => imputedD df₁ mask dD₁ i) ∧
      ((imputeCore df₂ mask dB₂ dD₂)[i]?).map Row.hasTableBooking
        = (df₂[i]?).map (fun _ => imputedB df₂ mask dB₂ i) ∧
      ((imputeCore df₂ mask dB₂ dD₂)[i]?).map Row.hasOnlineDelivery
        = (df₂[i]?).map (fun _ => imputedD df₂ mask dD₂ i)) := by
  constructor
  · intro h
    exact ⟨imputeCore_untouched df₁ mask dB₁ dD₁ i h,
           imputeCore_untouched df₂ mask dB₂ dD₂ i h⟩
  · intro h
    exact ⟨imputeCore_written_booking df₁ mask dB₁ dD₁ i h,
           imputeCore_written_delivery df₁ mask dB₁ dD₁ i h,
           imputeCore_written_booking df₂ mask dB₂ dD₂ i h,
           imputeCore_written_delivery df₂ mask dB₂ dD₂ i h⟩

/-- C10 witness: with the mask `mask3` (one eligible row, so only label
0 is rewritten), position 1 keeps its original row in two runs over the
distinct tables `df3` and `dfAlt`. -/
theorem written_positions_determined_by_mask_witness :
    (imputeCore df3 mask3 zeroDraws zeroDraws)[1]? = df3[1]? ∧
    (imputeCore dfAlt mask3 zeroDraws zeroDraws)[1]? = dfAlt[1]? :=
  (written_positions_determined_by_mask df3 dfAlt mask3
    zeroDraws zeroDraws zeroDraws zeroDraws 1).1 (by decide)

/-- C4: the per-city probability of each service attribute equals the
arithmetic mean (`specMean`, each true counted as 1) of the current
boolean column restricted to the rows of that city, and the global
probability equals the arithmetic mean of the same column over the whole
table. -/
theorem city_and_global_probabilities_are_means (df : List Row) (c : String)
    (h : 0 < (cityRows df c).length) :
    prob_booking df c = some (specMean ((cityRows df c).map Row.hasTableBooking)) ∧
    prob_delivery df c = some (specMean ((cityRows df c).map Row.hasOnlineDelivery)) ∧
    (0 < df.length →
      global_prob_booking df = some (specMean (df.map Row.hasTableBooking)) ∧
      global_prob_delivery df = some (specMean (df.map Row.hasOnlineDelivery))) :=
  ⟨meanBool_eq_specMean _ (by simpa using h),
   meanBool_eq_specMean _ (by simpa using h),
   fun hdf =>
     ⟨meanBool_eq_specMean _ (by simpa using hdf),
      meanBool_eq_specMean _ (by simpa using hdf)⟩⟩

/-- C4 witness: instantiation at the concrete table `df3` and city A. -/
theorem city_and_global_probabilities_are_means_witness :
    prob_booking df3 "A" = some (specMean ((cityRows df3 "A").map Row.hasTableBooking)) ∧
    prob_delivery df3 "A" = some (specMean ((cityRows df3 "A").map Row.hasOnlineDelivery)) ∧
    (0 < df3.length →
      global_prob_booking df3 = some (specMean (df3.map Row.hasTableBooking)) ∧
      global_prob_delivery df3 = some (specMean (df3.map Row.hasOnlineDelivery))) :=
  city_and_global_probabilities_are_means df3 "A" (by decide)

/-- C5: for a city with no rows in the table the city probability is
undefined, and the probability resolved for (hypothetical) rows of that
city is exactly the dataset-wide global mean, independently for each of
the two attributes. -/
theorem fallback_uses_global_mean (df : List Row) (c : String)
    (h : cityRows df c = []) :
    prob_booking df c = none ∧
    prob_delivery df c = none ∧
    resolved_prob_booking df c = global_prob_booking df ∧
    resolved_prob_delivery df c = global_prob_delivery df := by
  have hb : prob_booking df c = none := by simp [prob_booking, h, meanBool]
  have hd : prob_delivery df c = none := by simp [prob_delivery, h, meanBool]
  refine ⟨hb, hd, ?_, ?_⟩
  · unfold resolved_prob_booking
    rw [hb]
  · unfold resolved_prob_delivery
    rw [hd]

/-- C5 witness: city B has no rows in `df3`, so its resolved
probabilities are the global means. -/
theorem fallback_uses_global_mean_witness :
    prob_booking df3 "B" = none ∧
    prob_delivery df3 "B" = none ∧
    resolved_prob_booking df3 "B" = global_prob_booking df3 ∧
    resolved_prob_delivery df3 "B" = global_prob_delivery df3 :=
  fallback_uses_global_mean df3 "B" (by decide)

/-- C7: every defined probability the imputation derives — a per-city
aggregate or a global mean, for either attribute — lies in the closed
interval from 0 to 1. -/
theorem probabilities_in_unit_interval (df : List Row) (c : String) (q : ℚ)
    (h : prob_booking df c = some q ∨ prob_delivery df c = some q ∨
         global_prob_booking df = some q ∨ global_prob_delivery df = some q) :
    0 ≤ q ∧ q ≤ 1 := by
  rcases h with h | h | h | h <;> exact meanBool_bounds _ q h

/-- C7 witness: the single-row table `dfOne` has global booking
probability 1, which the bound theorem places in the unit interval. -/
theorem probabilities_in_unit_interval_witness : 0 ≤ (1 : ℚ) ∧ (1 : ℚ) ≤ 1 :=
  probabilities_in_unit_interval dfOne "A" 1
    (Or.inr (Or.inr (Or.inl (by simp [global_prob_booking, meanBool, dfOne]))))

/-- C6: under a fixed pair of draw sequences, the value imputed for the
i-th eligible row is exactly the comparison of the i-th draw with that
row resolved probability, one independent draw per attribute, and
re-running on the same input with the same draw sequences reproduces the
output exactly. -/
theorem imputed_value_is_draw_lt_probability
    (df : List Row) (mask : List MaskRow) (dB dD : Nat → ℚ) (i pos : Nat) (pb pd : ℚ)
    (h1 : targetPos mask i = some pos)
    (h2 : i < df.length)
    (hb : resolved_prob_booking df (cityAt df pos) = some pb)
    (hd : resolved_prob_delivery df (cityAt df pos) = some pd) :
    ((imputeCore df mask dB dD)[i]?).map Row.hasTableBooking
        = some (decide (dB i < pb)) ∧
    ((imputeCore df mask dB dD)[i]?).map Row.hasOnlineDelivery
        = some (decide (dD i < pd)) ∧
    ∀ dB2 dD2 : Nat → ℚ, (∀ j, dB j = dB2 j) → (∀ j, dD j = dD2 j) →
      imputeCore df mask dB dD = imputeCore df mask dB2 dD2 := by
  have hdf : df[i]? = some df[i] := List.getElem?_eq_getElem h2
  refine ⟨?_, ?_, ?_⟩
  · rw [imputeCore_getElem?, hdf]
    simp [imputeRow_of_some df mask dB dD i pos _ h1, hb, bern]
  · rw [imputeCore_getElem?, hdf]
    simp [imputeRow_of_some df mask dB dD i pos _ h1, hd, bern]
  · intro dB2 dD2 hB2 hD2
    have : dB = dB2 := funext hB2
    subst this
    have : dD = dD2 := funext hD2
    subst this
    rfl

/-- C6 witness: on the one-row table `dfE` whose only row is eligible,
with all draws zero, both imputed attributes equal the comparison of the
draw with the resolved probability 0. -/
theorem imputed_value_is_draw_lt_probability_witness :
    ((imputeCore dfE maskE zeroDraws zeroDraws)[0]?).map Row.hasTableBooking
        = some (decide (zeroDraws 0 < (0 : ℚ))) ∧
    ((imputeCore dfE maskE zeroDraws zeroDraws)[0]?).map Row.hasOnlineDelivery
        = some (decide (zeroDraws 0 < (0 : ℚ))) ∧
    ∀ dB2 dD2 : Nat → ℚ, (∀ j, zeroDraws j = dB2 j) → (∀ j, zeroDraws j = dD2 j) →
      imputeCore dfE maskE zeroDraws zeroDraws = imputeCore dfE maskE dB2 dD2 :=
  imputed_value_is_draw_lt_probability dfE maskE zeroDraws zeroDraws 0 0 0 0
    (by decide) (by decide)
    (by simp [resolved_prob_booking, prob_booking, meanBool, cityRows, cityAt, dfE])
    (by simp [resolved_prob_delivery, prob_delivery, meanBool, cityRows, cityAt, dfE])

/-- C9: on malformed input — a table without a City column, or a mask
whose index does not align with the table index — the entry point
signals an error instead of returning a table. -/
theorem malformed_input_fails_fast (flag : Bool) (df : List Row)
    (mask : List MaskRow) (dB dD : Nat → ℚ)
    (h : flag = false ∨ mask.length ≠ df.length) :
    ∃ e, impute_missing_services flag df mask dB dD = Except.error e := by
  unfold impute_missing_services
  rcases h with h | h
  · exact ⟨"KeyError: City", by rw [if_pos h]⟩
  · cases flag with
    | false => exact ⟨"KeyError: City", by rw [if_pos rfl]⟩
    | true =>
        exact ⟨"IndexingError: unalignable boolean mask",
          by rw [if_neg (by decide), if_pos h]⟩

/-- C9 witness: a one-row mask against an empty table is rejected. -/
theorem malformed_input_fails_fast_witness :
    ∃ e, impute_missing_services true [] maskE zeroDraws zeroDraws = Except.error e :=
  malformed_input_fails_fast true [] maskE zeroDraws zeroDraws (Or.inr (by decide))

/-- C1: evaluation of the code at a failing input for the claim that
only eligible rows are written.  In `df3` with `mask3`, row 0 had all
its original service fields present (it is not eligible) and row 2 is
the only eligible row; yet with a first booking draw of 0 the run
rewrites the booking attribute of row 0 from false to true, while
eligible row 2 is returned unchanged.  The cause is the merge on line 34
resetting the index of `restaurants_to_impute` to 0..k-1 before the
label-based write-back on lines 48-49. -/
theorem impute_rewrites_noneligible_row :
    (mask3[0]?).map isEligible = some false ∧
    (df3[0]?).map Row.hasTableBooking = some false ∧
    ((imputeCore df3 mask3 zeroDraws zeroDraws)[0]?).map Row.hasTableBooking
      = some true ∧
    (mask3[2]?).map isEligible = some true ∧
    (imputeCore df3 mask3 zeroDraws zeroDraws)[2]? = df3[2]? := by
  refine ⟨by decide, by decide, ?_, by decide, ?_⟩ <;>
    norm_num [imputeCore, imputeRow, targetPos, eligibleIdx, bern, cityAt,
      resolved_prob_booking, resolved_prob_delivery, prob_booking, prob_delivery,
      meanBool, cityRows, df3, mask3, zeroDraws, isEligible,
      List.enum, List.enumFrom]
